import Mathlib

/-!
Verification of the `first-go-api` repository: a shallow embedding of the
account HTTP API (src/api.go, src/types.go) and of the Postgres-backed
account store (src/db.go), together with theorems settling the claims about
its routing, error handling and store semantics.

Modelling choices:
* Go strings stay `String`; path manipulation is done on `String.data`
  (`List Char`) with faithful translations of `strings.TrimPrefix`,
  `strings.Trim` and `strings.Split`.
* Timestamps (`time.Time`, Postgres `now()`) are abstracted as `Nat` ticks
  held in the database state; the engine clock is the `now` field.
* The SQL engine is modelled as a state (`DB`): the accounts relation plus
  the two SERIAL generators, with an optional injected engine fault
  (`failure`) so that the "any other engine failure" branches of the Go
  error handling are exercised.
* Go `error` values are an inductive `GoError`: the `sql.ErrNoRows`
  sentinel, a raw engine error, or an error built by `fmt.Errorf`.
* JSON bodies are an inductive `Json`; `encoding/json` decoding into the
  request structs is translated field by field, including Go's behaviour of
  matching object keys to field tags exactly or case-insensitively
  (`strings.EqualFold`), leaving omitted fields at their zero values, and
  ignoring unknown keys.
-/

/-- JSON values as exchanged over the wire (arrays are never produced or
consumed by this API and are omitted). -/
inductive Json where
  | null
  | bool (b : Bool)
  | num (n : Int)
  | str (s : String)
  | obj (kvs : List (String × Json))
deriving Repr

/-- Model of `Account` (src/types.go:23-31). `ID`/`Number`/`Balance` are Go
`int`/`int64`, modelled as `Int`; the two timestamps are abstract ticks. -/
structure Account where
  ID : Int
  FirstName : String
  LastName : String
  Number : Int
  Balance : Int
  CreatedAt : Nat
  UpdatedAt : Nat
deriving Repr, DecidableEq

/-- Model of `CreateAccountRequest` (src/types.go:7-10). -/
structure CreateAccountRequest where
  FirstName : String
  LastName : String
deriving Repr, DecidableEq

/-- Model of `UpdateAccountRequest` (src/types.go:12-16). -/
structure UpdateAccountRequest where
  FirstName : String
  LastName : String
  Balance : Int
deriving Repr, DecidableEq

/-- Model of `BalanceResponse` (src/types.go:18-21). -/
structure BalanceResponse where
  ID : Int
  Balance : Int
deriving Repr, DecidableEq

/-- Go `error` values arising in this code: the `sql.ErrNoRows` sentinel,
a raw engine-level error, or an error created by `fmt.Errorf`. -/
inductive GoError where
  | sqlErrNoRows
  | engineError (msg : String)
  | errorf (msg : String)
deriving Repr, DecidableEq

/-- Model of `err.Error()`: the message text carried by a Go error. -/
def GoError.message : GoError → String
  | .sqlErrNoRows => "sql: no rows in result set"
  | .engineError m => m
  | .errorf m => m

/-- State of the `accounts` relation (schema: src/db.go:61-73): the rows,
the two SERIAL generators (`id`, `number`), the engine clock backing
`now()`, and an optional injected engine fault: when `failure = some m`,
every statement fails with that engine error. -/
structure DB where
  accounts : List Account
  nextId : Int
  nextNumber : Int
  now : Nat
  failure : Option String
deriving Repr, DecidableEq

/-- A fresh, healthy database: no rows, SERIAL generators at 1. -/
def emptyDB : DB :=
  { accounts := [], nextId := 1, nextNumber := 1, now := 0, failure := none }

/-- The row of the `accounts` relation matching `WHERE id = $1`, if any. -/
def findAccount (db : DB) (id : Int) : Option Account :=
  db.accounts.find? (fun a => a.ID == id)

/-- Model of `CreateAccount` (src/db.go:104-127): `INSERT INTO accounts (first_name,
last_name) VALUES ($1,$2) RETURNING ...`; the engine assigns `id` and
`number` from their SERIAL generators, defaults `balance` to 0 and both
timestamps to `now()` (src/db.go:62-70), and the handler scans the
returned row. Any scan error is returned unchanged. -/
def CreateAccount (db : DB) (req : CreateAccountRequest) :
    Except GoError Account × DB :=
  match db.failure with
  | some m => (.error (.engineError m), db)
  | none =>
    let created : Account :=
      { ID := db.nextId, FirstName := req.FirstName, LastName := req.LastName,
        Number := db.nextNumber, Balance := 0,
        CreatedAt := db.now, UpdatedAt := db.now }
    (.ok created,
      { db with accounts := db.accounts ++ [created],
                nextId := db.nextId + 1, nextNumber := db.nextNumber + 1 })

/-- Model of `UpdateAccount` (src/db.go:129-153): `UPDATE accounts SET first_name,
last_name, balance WHERE id = $4 RETURNING ...`; the update trigger
(src/db.go:75-102) sets `updated_at = now()` on the modified row. When no
row matches, `QueryRow(...).Scan` yields `sql.ErrNoRows`; the Go code
returns any scan error unchanged (src/db.go:149-151), with no
not-found wrapping. -/
def UpdateAccount (db : DB) (id : Int) (req : UpdateAccountRequest) :
    Except GoError Account × DB :=
  match db.failure with
  | some m => (.error (.engineError m), db)
  | none =>
    match findAccount db id with
    | none => (.error .sqlErrNoRows, db)
    | some a =>
      let updated : Account :=
        { a with FirstName := req.FirstName, LastName := req.LastName,
                 Balance := req.Balance, UpdatedAt := db.now }
      (.ok updated,
        { db with accounts :=
            db.accounts.map (fun b => if b.ID = id then updated else b) })

/-- Model of `DeleteAccount` (src/db.go:155-159): `DELETE FROM accounts WHERE id =
$1` via `Exec`; the affected-row count is never inspected, so a delete
that matches no row still succeeds. -/
def DeleteAccount (db : DB) (id : Int) : Except GoError Unit × DB :=
  match db.failure with
  | some m => (.error (.engineError m), db)
  | none => (.ok (), { db with accounts := db.accounts.filter (fun a => !(a.ID == id)) })

/-- Outcome of `QueryRow(... WHERE id = $1).Scan(...)` for a point lookup:
an injected engine fault, the matching row, or `sql.ErrNoRows`. -/
def scanAccountRow (db : DB) (id : Int) : Except GoError Account :=
  match db.failure with
  | some m => .error (.engineError m)
  | none =>
    match findAccount db id with
    | some a => .ok a
    | none => .error .sqlErrNoRows

/-- Model of `GetAccountByID` (src/db.go:161-188): point lookup; `sql.ErrNoRows`
is replaced by `fmt.Errorf("no account found with id %d", id)`
(src/db.go:181-183); any other scan error is returned raw. -/
def GetAccountByID (db : DB) (id : Int) : Except GoError Account :=
  match scanAccountRow db id with
  | .error e =>
    if e = .sqlErrNoRows then
      .error (.errorf ("no account found with id " ++ toString id))
    else .error e
  | .ok a => .ok a

/-- Model of `GetAccountBalanceByID` (src/db.go:190-203): `SELECT balance FROM
accounts WHERE id = $1`, with the same no-rows/raw-error split as
`GetAccountByID` (src/db.go:195-200). -/
def GetAccountBalanceByID (db : DB) (id : Int) : Except GoError Int :=
  match scanAccountRow db id with
  | .error e =>
    if e = .sqlErrNoRows then
      .error (.errorf ("no account found with id " ++ toString id))
    else .error e
  | .ok a => .ok a.Balance

/-- Rune folding as used by `encoding/json` key matching
(`strings.EqualFold`): ASCII letters fold by case via `Char.toLower`; the
only two non-ASCII runes whose Unicode simple-fold orbit meets an ASCII
letter — LATIN SMALL LETTER LONG S (U+017F, folds with `s`) and the
KELVIN SIGN (U+212A, folds with `K`/`k`) — are mapped to their ASCII
fold. Every other rune folds within its own non-ASCII orbit and can never
fold-match the ASCII field tags of this API, so mapping it by
`Char.toLower` (identity off ASCII) is faithful for those comparisons. -/
def foldRune (c : Char) : Char :=
  if c = Char.ofNat 0x17F then 's'
  else if c = Char.ofNat 0x212A then 'k'
  else c.toLower

/-- Model of `strings.EqualFold` restricted as described at `foldRune`:
rune-wise case-insensitive equality, the relation `encoding/json` uses to
match an incoming object key against a field tag when no exact match
exists. -/
def eqFold (s t : String) : Bool :=
  s.data.map foldRune == t.data.map foldRune

/-- One step of `encoding/json` filling a `CreateAccountRequest` from an
object entry: a key matches a field tag exactly or case-insensitively
(Go prefers an exact match; the three tags of this API are pairwise
fold-distinct, so each key fold-matches at most one field and the
preference never comes into play). A matched key sets its field (a JSON
`null` leaves it untouched, a wrong type is a decode error); unmatched
keys are ignored. -/
def setCreateField (r : CreateAccountRequest) (k : String) (v : Json) :
    Option CreateAccountRequest :=
  if eqFold k "firstName" then
    match v with
    | .str s => some { r with FirstName := s }
    | .null => some r
    | _ => none
  else if eqFold k "lastName" then
    match v with
    | .str s => some { r with LastName := s }
    | .null => some r
    | _ => none
  else some r

/-- Sequential field filling over the object's entries, starting from the
zero-valued struct (later duplicate keys overwrite earlier ones, as in Go). -/
def decodeCreateFields (r : CreateAccountRequest) :
    List (String × Json) → Option CreateAccountRequest
  | [] => some r
  | kv :: rest =>
    match setCreateField r kv.1 kv.2 with
    | none => none
    | some r1 => decodeCreateFields r1 rest

/-- Model of `json.NewDecoder(req.Body).Decode(&createReq)` (src/api.go:103):
`none` as body stands for a body that is not a single well-formed JSON
value (including an empty body); a JSON `null` decodes to the zero-valued
struct; any other non-object document is a decode error. -/
def decodeCreateAccountRequest : Option Json → Option CreateAccountRequest
  | some (.obj kvs) => decodeCreateFields { FirstName := "", LastName := "" } kvs
  | some .null => some { FirstName := "", LastName := "" }
  | _ => none

/-- One step of `encoding/json` filling an `UpdateAccountRequest`, with
the same exact-or-case-insensitive key matching as `setCreateField`;
`balance` must be a JSON number (Go `int64`), the names JSON strings. -/
def setUpdateField (r : UpdateAccountRequest) (k : String) (v : Json) :
    Option UpdateAccountRequest :=
  if eqFold k "firstName" then
    match v with
    | .str s => some { r with FirstName := s }
    | .null => some r
    | _ => none
  else if eqFold k "lastName" then
    match v with
    | .str s => some { r with LastName := s }
    | .null => some r
    | _ => none
  else if eqFold k "balance" then
    match v with
    | .num n => some { r with Balance := n }
    | .null => some r
    | _ => none
  else some r

/-- Sequential field filling for `UpdateAccountRequest`. -/
def decodeUpdateFields (r : UpdateAccountRequest) :
    List (String × Json) → Option UpdateAccountRequest
  | [] => some r
  | kv :: rest =>
    match setUpdateField r kv.1 kv.2 with
    | none => none
    | some r1 => decodeUpdateFields r1 rest

/-- Model of `json.NewDecoder(req.Body).Decode(&updateReq)` (src/api.go:127):
fields absent from the object keep their Go zero values. -/
def decodeUpdateAccountRequest : Option Json → Option UpdateAccountRequest
  | some (.obj kvs) =>
    decodeUpdateFields { FirstName := "", LastName := "", Balance := 0 } kvs
  | some .null => some { FirstName := "", LastName := "", Balance := 0 }
  | _ => none

/-- JSON encoding of `Account` per its field tags (src/types.go:23-31). -/
def encodeAccount (a : Account) : Json :=
  .obj [("id", .num a.ID), ("firstName", .str a.FirstName),
        ("lastName", .str a.LastName), ("number", .num a.Number),
        ("balance", .num a.Balance), ("createdAt", .num (a.CreatedAt : Int)),
        ("updatedAt", .num (a.UpdatedAt : Int))]

/-- JSON encoding of `BalanceResponse` per its field tags. -/
def encodeBalanceResponse (b : BalanceResponse) : Json :=
  .obj [("id", .num b.ID), ("balance", .num b.Balance)]

/-- An HTTP request as seen by the dispatcher: method, `req.URL.Path`, and
the body (`none` when it is not a single well-formed JSON value). -/
structure Request where
  method : String
  path : String
  body : Option Json
deriving Repr

/-- The response written to the `http.ResponseWriter`: status code, the
Content-Type header if one was added, and the JSON body if one was
encoded. -/
structure Response where
  status : Nat
  contentType : Option String
  body : Option Json
deriving Repr

/-- Model of `WriteJSON` (src/api.go:155-159): adds `Content-Type:
application/json`, writes the status, and JSON-encodes the payload. -/
def WriteJSON (status : Nat) (data : Json) : Response :=
  { status := status, contentType := some "application/json", body := some data }

/-- Model of `strings.TrimPrefix(req.URL.Path, "/account")` (src/api.go:41) on the
character list: drop the 8 characters when they are present. -/
def stripAccountPre (cs : List Char) : List Char :=
  if cs.take 8 = ['/', 'a', 'c', 'c', 'o', 'u', 'n', 't'] then cs.drop 8 else cs

/-- Model of `strings.Trim(path, "/")` (src/api.go:42): remove leading and trailing
`/` characters. -/
def trimSlashes (cs : List Char) : List Char :=
  ((cs.dropWhile (fun c => c = '/')).reverse.dropWhile (fun c => c = '/')).reverse

/-- Accumulator loop of `strings.Split(path, "/")`. -/
def goSplitAux : List Char → List Char → List String
  | [], acc => [String.mk acc.reverse]
  | c :: rest, acc =>
    if c = '/' then String.mk acc.reverse :: goSplitAux rest []
    else goSplitAux rest (c :: acc)

/-- Model of `strings.Split(path, "/")` (src/api.go:44). For a non-empty separator
Go always returns at least one element; in particular splitting the empty
string yields `[""]`, never `[]`. -/
def goSplit (cs : List Char) : List String := goSplitAux cs []

/-- Value of a digit run, `none` on the first non-digit. -/
def digitsVal : List Char → Nat → Option Nat
  | [], acc => some acc
  | c :: rest, acc =>
    if c.isDigit then digitsVal rest (acc * 10 + (c.toNat - '0'.toNat)) else none

/-- Sign-stripped core of `strconv.Atoi`: at least one digit, all digits,
64-bit range check. -/
def goAtoiCore (s : String) (ds : List Char) (negative : Bool) : Except String Int :=
  let invalidMsg := "strconv.Atoi: parsing \"" ++ s ++ "\": invalid syntax"
  let rangeMsg := "strconv.Atoi: parsing \"" ++ s ++ "\": value out of range"
  match ds with
  | [] => .error invalidMsg
  | _ =>
    match digitsVal ds 0 with
    | none => .error invalidMsg
    | some n =>
      if negative then
        if (n : Int) ≤ 2 ^ 63 then .ok (-(n : Int)) else .error rangeMsg
      else
        if (n : Int) < 2 ^ 63 then .ok (n : Int) else .error rangeMsg

/-- Model of `strconv.Atoi` (src/api.go:56): optional single sign, then one or more
ASCII digits; anything else is an `invalid syntax` error (whose `%v`
rendering quotes the input), an out-of-64-bit-range value an `out of
range` error. The error text matches Go's for inputs without characters
that `%q` would escape. -/
def goAtoi (s : String) : Except String Int :=
  match s.data with
  | '+' :: rest => goAtoiCore s rest false
  | '-' :: rest => goAtoiCore s rest true
  | cs => goAtoiCore s cs false

/-- Model of `handleGetAccount` (src/api.go:91-99): store lookup, then 200 with the
record; store errors are returned to the dispatcher unchanged. -/
def handleGetAccount (db : DB) (id : Int) : Except GoError Response :=
  match GetAccountByID db id with
  | .error e => .error e
  | .ok account => .ok (WriteJSON 200 (encodeAccount account))

/-- Model of `handleCreateAccount` (src/api.go:101-114): decode the body (a decode
error becomes `invalid request body` before the store is touched), insert,
then 201 with the created record. -/
def handleCreateAccount (db : DB) (body : Option Json) :
    Except GoError Response × DB :=
  match decodeCreateAccountRequest body with
  | none => (.error (.errorf "invalid request body"), db)
  | some createReq =>
    match CreateAccount db createReq with
    | (.error e, db1) => (.error e, db1)
    | (.ok created, db1) => (.ok (WriteJSON 201 (encodeAccount created)), db1)

/-- Model of `handleDeleteAccount` (src/api.go:116-123): delete, then bare
`WriteHeader(204)` — no Content-Type header, no body, bypassing
`WriteJSON`. -/
def handleDeleteAccount (db : DB) (id : Int) : Except GoError Response × DB :=
  match DeleteAccount db id with
  | (.error e, db1) => (.error e, db1)
  | (.ok _, db1) => (.ok { status := 204, contentType := none, body := none }, db1)

/-- Model of `handleUpdateAccount` (src/api.go:125-138): decode the body (a decode
error becomes `invalid request body` before the store is touched), update,
then 200 with the updated record. -/
def handleUpdateAccount (db : DB) (id : Int) (body : Option Json) :
    Except GoError Response × DB :=
  match decodeUpdateAccountRequest body with
  | none => (.error (.errorf "invalid request body"), db)
  | some updateReq =>
    match UpdateAccount db id updateReq with
    | (.error e, db1) => (.error e, db1)
    | (.ok updated, db1) => (.ok (WriteJSON 200 (encodeAccount updated)), db1)

/-- Model of `handleGetBalance` (src/api.go:140-151): balance lookup, then 200 with
a `BalanceResponse`. -/
def handleGetBalance (db : DB) (id : Int) : Except GoError Response :=
  match GetAccountBalanceByID db id with
  | .error e => .error e
  | .ok balance =>
    .ok (WriteJSON 200 (encodeBalanceResponse { ID := id, Balance := balance }))

/-- Model of `handleAccountRouter` (src/api.go:40-89): strip the `/account`
literal, trim slashes, split on `/`, then dispatch on segment count and
method exactly as the Go `switch` does. The `[]` branch mirrors Go's
`case 0`, which is unreachable because `strings.Split` never returns an
empty slice for a non-empty separator. -/
def handleAccountRouter (db : DB) (req : Request) :
    Except GoError Response × DB :=
  match goSplit (trimSlashes (stripAccountPre req.path.data)) with
  | [] =>
    if req.method = "POST" then handleCreateAccount db req.body
    else (.error (.errorf ("method " ++ req.method ++ " not allowed on /account")), db)
  | [seg] =>
    match goAtoi seg with
    | .error m => (.error (.errorf ("invalid account ID: " ++ m)), db)
    | .ok id =>
      match req.method with
      | "GET" => (handleGetAccount db id, db)
      | "PUT" => handleUpdateAccount db id req.body
      | "DELETE" => handleDeleteAccount db id
      | _ =>
        (.error (.errorf ("method " ++ req.method ++ " not allowed on /account/\x7bid\x7d")), db)
  | [seg, action] =>
    match goAtoi seg with
    | .error m => (.error (.errorf ("invalid account ID: " ++ m)), db)
    | .ok id =>
      if action = "balance" then
        if req.method = "GET" then (handleGetBalance db id, db)
        else (.error (.errorf "not found"), db)
      else (.error (.errorf "not found"), db)
  | _ => (.error (.errorf "not found"), db)

/-- Model of `makeHTTPHandleFunc` (src/api.go:173-179): run the wrapped handler;
when it returns an error, write `{"error": <message>}` with status 400. -/
def makeHTTPHandleFunc (f : DB → Request → Except GoError Response × DB)
    (db : DB) (req : Request) : Response × DB :=
  match f db req with
  | (.error e, db1) => (WriteJSON 400 (.obj [("error", .str e.message)]), db1)
  | (.ok resp, db1) => (resp, db1)

/-- The served endpoint: `makeHTTPHandleFunc(s.handleAccountRouter)` as
registered for `/account` and `/account/` (src/api.go:30-31). -/
def serve (db : DB) (req : Request) : Response × DB :=
  makeHTTPHandleFunc handleAccountRouter db req

/-- Well-formed database: every stored row's `id` and `number` are below
the respective SERIAL generator — exactly what the engine's sequences
guarantee, and what `emptyDB`/`CreateAccount` maintain. -/
def WFdb (db : DB) : Prop :=
  ∀ a ∈ db.accounts, a.ID < db.nextId ∧ a.Number < db.nextNumber

/-- A concrete stored row, used to instantiate theorems with hypotheses. -/
def sampleAccount : Account :=
  { ID := 1, FirstName := "Jane", LastName := "Doe", Number := 1,
    Balance := 500, CreatedAt := 3, UpdatedAt := 4 }

/-- A healthy one-row database whose SERIAL generators are past the stored
row, used to instantiate theorems with hypotheses. -/
def sampleDB : DB :=
  { accounts := [sampleAccount], nextId := 2, nextNumber := 2, now := 9,
    failure := none }

/-! ### Helper lemmas on path normalization -/

theorem dropWhile_slash_eq_self (cs : List Char) (h : '/' ∉ cs) :
    cs.dropWhile (fun c => c = '/') = cs := by
  cases cs with
  | nil => rfl
  | cons c rest =>
    simp only [List.mem_cons, not_or] at h
    rw [List.dropWhile_cons_of_neg]
    simp only [decide_eq_true_eq]
    exact fun hh => h.1 hh.symm

theorem trimSlashes_slash_cons (cs : List Char) (h : '/' ∉ cs) :
    trimSlashes ('/' :: cs) = cs := by
  unfold trimSlashes
  rw [List.dropWhile_cons_of_pos (by simp)]
  rw [dropWhile_slash_eq_self cs h]
  rw [dropWhile_slash_eq_self cs.reverse (by simpa using h)]
  exact List.reverse_reverse cs

theorem goSplitAux_no_slash (cs : List Char) (h : '/' ∉ cs) :
    ∀ acc, goSplitAux cs acc = [String.mk (acc.reverse ++ cs)] := by
  induction cs with
  | nil => intro acc; simp [goSplitAux]
  | cons c rest ih =>
    intro acc
    simp only [List.mem_cons, not_or] at h
    have hc : ¬ (c = '/') := fun hh => h.1 hh.symm
    simp only [goSplitAux, if_neg hc, ih h.2]
    simp

theorem goSplit_no_slash (s : String) (h : '/' ∉ s.data) : goSplit s.data = [s] := by
  rw [goSplit, goSplitAux_no_slash s.data h]
  rfl

theorem one_segment_path (seg : String) (h : '/' ∉ seg.data) :
    goSplit (trimSlashes (stripAccountPre ("/account/" ++ seg).data)) = [seg] := by
  have hdata : ("/account/" ++ seg).data =
      '/' :: 'a' :: 'c' :: 'c' :: 'o' :: 'u' :: 'n' :: 't' :: '/' :: seg.data := by
    rw [String.data_append]; rfl
  rw [hdata]
  have hstrip : stripAccountPre
      ('/' :: 'a' :: 'c' :: 'c' :: 'o' :: 'u' :: 'n' :: 't' :: '/' :: seg.data) =
      '/' :: seg.data := by
    simp [stripAccountPre]
  rw [hstrip, trimSlashes_slash_cons seg.data h, goSplit_no_slash seg h]

/-! ### C1: dispatch of the base collection path `/account` -/

/-- C1: the claim says a request to `/account` itself yields zero path
segments, so that POST reaches the create handler (201) and any other
method a MethodNotAllowed error. The code disagrees: `strings.Split`
never returns an empty slice for a non-empty separator, so `/account`
normalizes to the single segment `""`, `strconv.Atoi("")` fails, and for
EVERY method and EVERY body the dispatcher answers 400 `invalid account
ID`, leaving the store untouched; `handleCreateAccount` is unreachable.
This theorem evaluates the code at the failing input. -/
theorem c1_post_account_hits_dead_branch (db : DB) (m : String) (b : Option Json) :
    serve db { method := m, path := "/account", body := b } =
      (WriteJSON 400 (.obj [("error",
        .str "invalid account ID: strconv.Atoi: parsing \"\": invalid syntax")]), db) := by
  rfl

/-! ### C3: UpdateAccount on a missing id -/

/-- C3 counterexample: on the empty database, `UpdateAccount 1` fails with
the raw `sql.ErrNoRows` sentinel passed through unwrapped — not with the
formatted not-found error (`NotFoundError`) that `GetAccountByID`
produces, refuting the claim as stated. -/
theorem c3_counterexample :
    (UpdateAccount emptyDB 1 { FirstName := "A", LastName := "B", Balance := 0 }).1 =
      .error .sqlErrNoRows ∧
    GoError.sqlErrNoRows ≠ .errorf "no account found with id 1" :=
  ⟨rfl, fun h => GoError.noConfusion h⟩

/-- C3 (amended): for every healthy database and id with no matching row,
`UpdateAccount` fails, but with the raw engine `sql.ErrNoRows` error
returned unchanged (src/db.go:149-151) — never with the formatted
not-found error that the two Get operations produce. -/
theorem c3_update_missing_raw_error (db : DB) (id : Int)
    (req : UpdateAccountRequest) (hh : db.failure = none)
    (hf : findAccount db id = none) :
    UpdateAccount db id req = (.error .sqlErrNoRows, db) ∧
    (∀ s, GoError.sqlErrNoRows ≠ .errorf s) := by
  constructor
  · simp [UpdateAccount, hh, hf]
  · exact fun s h => GoError.noConfusion h

/-- C3 witness: the amended theorem applied on the empty database. -/
theorem c3_update_missing_raw_error_witness :
    emptyDB.failure = none ∧ findAccount emptyDB 1 = none ∧
    UpdateAccount emptyDB 1 { FirstName := "A", LastName := "B", Balance := 0 } =
      (.error .sqlErrNoRows, emptyDB) :=
  ⟨rfl, rfl,
    (c3_update_missing_raw_error emptyDB 1
      { FirstName := "A", LastName := "B", Balance := 0 } rfl rfl).1⟩

/-! ### C6: not-found versus storage errors in the Get operations -/

/-- C6: for every id with no matching row in a healthy database,
`GetAccountByID` and `GetAccountBalanceByID` fail with the formatted
not-found error `no account found with id %d`; under any other engine
failure they fail with the raw engine error; the two kinds are different
constructors of `GoError`, hence distinguishable by the caller. -/
theorem c6_get_notfound_vs_storage (db : DB) (id : Int) :
    (db.failure = none → findAccount db id = none →
      GetAccountByID db id =
        .error (.errorf ("no account found with id " ++ toString id)) ∧
      GetAccountBalanceByID db id =
        .error (.errorf ("no account found with id " ++ toString id))) ∧
    (∀ m, db.failure = some m →
      GetAccountByID db id = .error (.engineError m) ∧
      GetAccountBalanceByID db id = .error (.engineError m)) ∧
    (∀ s m, GoError.errorf s ≠ GoError.engineError m) := by
  refine ⟨?_, ?_, ?_⟩
  · intro hh hf
    constructor <;>
      simp [GetAccountByID, GetAccountBalanceByID, scanAccountRow, hh, hf]
  · intro m hm
    constructor <;>
      simp [GetAccountByID, GetAccountBalanceByID, scanAccountRow, hm]
  · exact fun s m h => GoError.noConfusion h

/-- C6 witness: the theorem applied on the empty database at id 7 and on a
faulted engine. -/
theorem c6_get_notfound_vs_storage_witness :
    (GetAccountByID emptyDB 7 = .error (.errorf "no account found with id 7") ∧
     GetAccountBalanceByID emptyDB 7 =
       .error (.errorf "no account found with id 7")) ∧
    (GetAccountByID { emptyDB with failure := some "connection refused" } 7 =
       .error (.engineError "connection refused")) :=
  ⟨(c6_get_notfound_vs_storage emptyDB 7).1 rfl rfl,
   ((c6_get_notfound_vs_storage { emptyDB with failure := some "connection refused" } 7).2.1
      "connection refused" rfl).1⟩

/-! ### C7: deletion is idempotent -/

/-- C7: on a healthy engine, `DeleteAccount` succeeds for every id —
including ids with no matching row, since the affected-row count is never
inspected (src/db.go:155-159) — and deleting the same id twice in
succession succeeds both times. -/
theorem c7_delete_idempotent (db : DB) (id : Int) (hh : db.failure = none) :
    (DeleteAccount db id).1 = .ok () ∧
    (DeleteAccount (DeleteAccount db id).2 id).1 = .ok () := by
  constructor <;> simp [DeleteAccount, hh]

/-- C7 witness: deleting the absent id 5 twice on the empty database. -/
theorem c7_delete_idempotent_witness :
    findAccount emptyDB 5 = none ∧
    (DeleteAccount emptyDB 5).1 = .ok () ∧
    (DeleteAccount (DeleteAccount emptyDB 5).2 5).1 = .ok () :=
  ⟨rfl, (c7_delete_idempotent emptyDB 5 rfl).1, (c7_delete_idempotent emptyDB 5 rfl).2⟩

/-! ### C10: malformed bodies never reach the store -/

/-- C10: whenever the POST or PUT body fails JSON decoding, the handler
returns the error `invalid request body` and the database state is
returned unchanged — the store is never called, so no account is created
or modified (src/api.go:101-106, 125-130). -/
theorem c10_malformed_body_rejected (db : DB) (id : Int) (b : Option Json) :
    (decodeCreateAccountRequest b = none →
      handleCreateAccount db b = (.error (.errorf "invalid request body"), db)) ∧
    (decodeUpdateAccountRequest b = none →
      handleUpdateAccount db id b = (.error (.errorf "invalid request body"), db)) := by
  constructor <;> intro h
  · simp [handleCreateAccount, h]
  · simp [handleUpdateAccount, h]

/-- C10 witness: a non-JSON (unparseable) body on the sample database. -/
theorem c10_malformed_body_rejected_witness :
    decodeCreateAccountRequest none = none ∧
    decodeUpdateAccountRequest none = none ∧
    handleCreateAccount sampleDB none =
      (.error (.errorf "invalid request body"), sampleDB) ∧
    handleUpdateAccount sampleDB 1 none =
      (.error (.errorf "invalid request body"), sampleDB) :=
  ⟨rfl, rfl, (c10_malformed_body_rejected sampleDB 1 none).1 rfl,
    (c10_malformed_body_rejected sampleDB 1 none).2 rfl⟩

/-! ### C4: the `{id}` segment and non-integer ids -/

theorem router_one_segment (db : DB) (m : String) (b : Option Json)
    (seg : String) (hs : '/' ∉ seg.data) :
    handleAccountRouter db { method := m, path := "/account/" ++ seg, body := b } =
      (match goAtoi seg with
       | .error m2 => (.error (.errorf ("invalid account ID: " ++ m2)), db)
       | .ok id =>
         match m with
         | "GET" => (handleGetAccount db id, db)
         | "PUT" => handleUpdateAccount db id b
         | "DELETE" => handleDeleteAccount db id
         | _ =>
           (.error (.errorf ("method " ++ m ++ " not allowed on /account/\x7bid\x7d")), db)) := by
  unfold handleAccountRouter
  dsimp only
  rw [one_segment_path seg hs]

/-- C4 counterexample: `-1` is not a non-negative integer, yet
`strconv.Atoi` parses it, so a GET on the account path with segment `-1`
is NOT answered with the
validation-style `invalid account ID` message: the dispatcher invokes the
fetch handler, whose store lookup produces the not-found message `no
account found with id -1` — refuting "the segment must parse as a
non-negative integer" and "without invoking any handler". -/
theorem c4_counterexample :
    serve emptyDB { method := "GET", path := "/account/-1", body := none } =
      (WriteJSON 400 (.obj [("error", .str "no account found with id -1")]), emptyDB) ∧
    "no account found with id -1" ≠
      "invalid account ID: strconv.Atoi: parsing \"-1\": invalid syntax" := by
  constructor
  · rfl
  · decide

/-- C4 (amended): for every request whose path is `/account/{seg}` with a
single slash-free segment, the segment must parse under `strconv.Atoi` as
a (possibly negative) integer; when it does not parse (e.g. `abc`), the
dispatcher responds 400 with the validation-style message `invalid
account ID: ...` for ANY HTTP method, the database is returned untouched,
and no handler runs. Negative ids parse and are handed to the handlers. -/
theorem c4_nonint_id_rejected (db : DB) (m : String) (b : Option Json)
    (seg : String) (msg : String) (hs : '/' ∉ seg.data)
    (ha : goAtoi seg = .error msg) :
    serve db { method := m, path := "/account/" ++ seg, body := b } =
      (WriteJSON 400 (.obj [("error", .str ("invalid account ID: " ++ msg))]), db) := by
  unfold serve makeHTTPHandleFunc
  rw [router_one_segment db m b seg hs, ha]
  rfl

/-- C4 witness: the amended theorem applied to `PATCH /account/abc`. -/
theorem c4_nonint_id_rejected_witness :
    ('/' ∉ "abc".data) ∧
    goAtoi "abc" = .error "strconv.Atoi: parsing \"abc\": invalid syntax" ∧
    serve emptyDB { method := "PATCH", path := "/account/" ++ "abc", body := none } =
      (WriteJSON 400 (.obj [("error",
        .str ("invalid account ID: " ++ "strconv.Atoi: parsing \"abc\": invalid syntax"))]),
       emptyDB) :=
  ⟨by decide, rfl,
    c4_nonint_id_rejected emptyDB "PATCH" none "abc" _ (by decide) rfl⟩

/-! ### C2: Content-Type of every written response -/

theorem handleGetAccount_ok_ct (db : DB) (id : Int) (r : Response)
    (h : handleGetAccount db id = .ok r) :
    r.contentType = some "application/json" := by
  cases hg : GetAccountByID db id with
  | error e => simp [handleGetAccount, hg] at h
  | ok a =>
    simp only [handleGetAccount, hg, Except.ok.injEq] at h
    rw [← h]; rfl

theorem handleGetBalance_ok_ct (db : DB) (id : Int) (r : Response)
    (h : handleGetBalance db id = .ok r) :
    r.contentType = some "application/json" := by
  cases hg : GetAccountBalanceByID db id with
  | error e => simp [handleGetBalance, hg] at h
  | ok bal =>
    simp only [handleGetBalance, hg, Except.ok.injEq] at h
    rw [← h]; rfl

theorem handleCreateAccount_ok_ct (db : DB) (b : Option Json) (r : Response)
    (db1 : DB) (h : handleCreateAccount db b = (.ok r, db1)) :
    r.contentType = some "application/json" := by
  cases hd : decodeCreateAccountRequest b with
  | none => simp [handleCreateAccount, hd] at h
  | some req1 =>
    rcases hc : CreateAccount db req1 with ⟨res, db2⟩
    cases res with
    | error e => simp [handleCreateAccount, hd, hc] at h
    | ok acc =>
      simp only [handleCreateAccount, hd, hc, Prod.mk.injEq, Except.ok.injEq] at h
      rw [← h.1]; rfl

theorem handleUpdateAccount_ok_ct (db : DB) (id : Int) (b : Option Json)
    (r : Response) (db1 : DB) (h : handleUpdateAccount db id b = (.ok r, db1)) :
    r.contentType = some "application/json" := by
  cases hd : decodeUpdateAccountRequest b with
  | none => simp [handleUpdateAccount, hd] at h
  | some req1 =>
    rcases hc : UpdateAccount db id req1 with ⟨res, db2⟩
    cases res with
    | error e => simp [handleUpdateAccount, hd, hc] at h
    | ok acc =>
      simp only [handleUpdateAccount, hd, hc, Prod.mk.injEq, Except.ok.injEq] at h
      rw [← h.1]; rfl

theorem handleDeleteAccount_ok_shape (db : DB) (id : Int) (r : Response)
    (db1 : DB) (h : handleDeleteAccount db id = (.ok r, db1)) :
    r.status = 204 ∧ r.contentType = none ∧ r.body = none := by
  rcases hc : DeleteAccount db id with ⟨res, db2⟩
  cases res with
  | error e => simp [handleDeleteAccount, hc] at h
  | ok u =>
    simp only [handleDeleteAccount, hc, Prod.mk.injEq, Except.ok.injEq] at h
    rw [← h.1]; exact ⟨rfl, rfl, rfl⟩

theorem router_ok_ct (db : DB) (req : Request) (r : Response) (db1 : DB)
    (h : handleAccountRouter db req = (.ok r, db1)) :
    r.contentType = some "application/json" ∨
      (r.status = 204 ∧ r.contentType = none ∧ r.body = none) := by
  unfold handleAccountRouter at h
  split at h
  · split at h
    · exact Or.inl (handleCreateAccount_ok_ct db req.body r db1 h)
    · simp at h
  · split at h
    · simp at h
    · split at h
      · simp only [Prod.mk.injEq] at h
        exact Or.inl (handleGetAccount_ok_ct db _ r h.1)
      · exact Or.inl (handleUpdateAccount_ok_ct db _ req.body r db1 h)
      · exact Or.inr (handleDeleteAccount_ok_shape db _ r db1 h)
      · simp at h
  · split at h
    · simp at h
    · split at h
      · split at h
        · simp only [Prod.mk.injEq] at h
          exact Or.inl (handleGetBalance_ok_ct db _ r h.1)
        · simp at h
      · simp at h
  · simp at h

/-- C2 counterexample: the successful `DELETE /account/1` response is
written by a bare `WriteHeader(204)` (src/api.go:121): no `Content-Type:
application/json` header and no JSON-encoded body, refuting "every
response ... is JSON-encoded with Content-Type: application/json". -/
theorem c2_counterexample :
    (serve sampleDB { method := "DELETE", path := "/account/1", body := none }).1 =
      { status := 204, contentType := none, body := none } ∧
    ({ status := 204, contentType := none, body := none } : Response).contentType ≠
      some "application/json" :=
  ⟨rfl, fun h => Option.noConfusion h⟩

/-- C2 (amended): every response the dispatcher writes carries
`Content-Type: application/json` and a JSON-encoded body — with the one
exception of the DELETE success response, which is a bare 204 with no
Content-Type header and an empty body. -/
theorem c2_responses_json_except_delete (db : DB) (req : Request) :
    ((serve db req).1).contentType = some "application/json" ∨
      ((serve db req).1.status = 204 ∧ (serve db req).1.contentType = none ∧
        (serve db req).1.body = none) := by
  unfold serve makeHTTPHandleFunc
  rcases hr : handleAccountRouter db req with ⟨res, db1⟩
  cases res with
  | error e => left; rfl
  | ok resp => exact router_ok_ct db req resp db1 hr

/-! ### C5: uniform error translation in the dispatcher -/

/-- C5: whenever the routed handler chain returns an error — of any kind —
the outer wrapper writes `{"error": <message>}` with status 400 and the
handler-threaded state; and each handler propagates store errors
unchanged to the dispatcher (src/api.go:93-95, 109-110, 117-118,
133-134, 142-143). -/
theorem c5_uniform_error_translation (db : DB) (req : Request) :
    (∀ e db1, handleAccountRouter db req = (.error e, db1) →
      serve db req =
        (WriteJSON 400 (.obj [("error", .str e.message)]), db1)) ∧
    (∀ id e, GetAccountByID db id = .error e →
      handleGetAccount db id = .error e) ∧
    (∀ id e, GetAccountBalanceByID db id = .error e →
      handleGetBalance db id = .error e) ∧
    (∀ id e db1, DeleteAccount db id = (.error e, db1) →
      handleDeleteAccount db id = (.error e, db1)) ∧
    (∀ b r1 e db1, decodeCreateAccountRequest b = some r1 →
      CreateAccount db r1 = (.error e, db1) →
      handleCreateAccount db b = (.error e, db1)) ∧
    (∀ id b r1 e db1, decodeUpdateAccountRequest b = some r1 →
      UpdateAccount db id r1 = (.error e, db1) →
      handleUpdateAccount db id b = (.error e, db1)) := by
  refine ⟨?_, ?_, ?_, ?_, ?_, ?_⟩
  · intro e db1 h
    simp [serve, makeHTTPHandleFunc, h]
  · intro id e h
    simp [handleGetAccount, h]
  · intro id e h
    simp [handleGetBalance, h]
  · intro id e db1 h
    simp [handleDeleteAccount, h]
  · intro b r1 e db1 hd hc
    simp [handleCreateAccount, hd, hc]
  · intro id b r1 e db1 hd hc
    simp [handleUpdateAccount, hd, hc]

/-- C5 witness: a not-found store error on `GET /account/5` is surfaced
as a 400 JSON error body carrying the error's message. -/
theorem c5_uniform_error_translation_witness :
    handleAccountRouter emptyDB { method := "GET", path := "/account/5", body := none } =
      (.error (.errorf "no account found with id 5"), emptyDB) ∧
    serve emptyDB { method := "GET", path := "/account/5", body := none } =
      (WriteJSON 400 (.obj [("error", .str "no account found with id 5")]), emptyDB) :=
  ⟨rfl,
    (c5_uniform_error_translation emptyDB
      { method := "GET", path := "/account/5", body := none }).1
      (.errorf "no account found with id 5") emptyDB rfl⟩

/-! ### C8: created records are fully populated and fresh -/

/-- C8: on a healthy, well-formed database (every stored row's id and
number are below the SERIAL generators — the engine's sequence
guarantee), `CreateAccount` returns a fully populated record whose id and
accountNumber were never issued before, whose balance is 0, and whose
createdAt equals its updatedAt; the SERIAL generators then advance, so
the database stays well-formed. -/
theorem c8_create_fresh (db : DB) (req : CreateAccountRequest)
    (hw : WFdb db) (hh : db.failure = none) :
    ∃ created db1,
      CreateAccount db req = (.ok created, db1) ∧
      created.Balance = 0 ∧
      created.CreatedAt = created.UpdatedAt ∧
      created.FirstName = req.FirstName ∧
      created.LastName = req.LastName ∧
      (∀ b ∈ db.accounts, b.ID ≠ created.ID ∧ b.Number ≠ created.Number) ∧
      WFdb db1 := by
  obtain ⟨accs, nid, nnum, nowv, fail⟩ := db
  dsimp only at hw hh ⊢
  subst hh
  refine ⟨_, _, rfl, rfl, rfl, rfl, rfl, ?_, ?_⟩
  · intro b hb
    obtain ⟨h1, h2⟩ := hw b hb
    exact ⟨ne_of_lt h1, ne_of_lt h2⟩
  · intro b hb
    dsimp only at hb ⊢
    simp only [List.mem_append, List.mem_singleton] at hb
    cases hb with
    | inl hmem =>
      obtain ⟨h1, h2⟩ := hw b hmem
      dsimp only at h1 h2
      constructor <;> dsimp only <;> omega
    | inr heq =>
      subst heq
      constructor <;> dsimp only <;> omega

/-- C8 witness: creating on the one-row sample database yields id 2 and
number 2, both never issued before, with balance 0 and equal
timestamps. -/
theorem c8_create_fresh_witness :
    WFdb sampleDB ∧
    (∃ created db1,
      CreateAccount sampleDB { FirstName := "Ann", LastName := "Lee" } =
        (.ok created, db1) ∧
      created.Balance = 0 ∧
      created.CreatedAt = created.UpdatedAt ∧
      created.FirstName = "Ann" ∧
      created.LastName = "Lee" ∧
      (∀ b ∈ sampleDB.accounts, b.ID ≠ created.ID ∧ b.Number ≠ created.Number) ∧
      WFdb db1) :=
  ⟨by unfold WFdb; decide,
   c8_create_fresh sampleDB { FirstName := "Ann", LastName := "Lee" }
     (by unfold WFdb; decide) rfl⟩

/-! ### C9: omitted PUT body fields decode to zero values and are written
wholesale -/

theorem setUpdateField_preserves (r r1 : UpdateAccountRequest) (k : String)
    (v : Json) (h : setUpdateField r k v = some r1) :
    (eqFold k "balance" = false → r1.Balance = r.Balance) ∧
    (eqFold k "firstName" = false → r1.FirstName = r.FirstName) ∧
    (eqFold k "lastName" = false → r1.LastName = r.LastName) := by
  unfold setUpdateField at h
  split_ifs at h with h1 h2 h3
  · cases v with
    | null =>
      injection h with h; subst h
      exact ⟨fun _ => rfl, fun _ => rfl, fun _ => rfl⟩
    | str s =>
      injection h with h; subst h
      exact ⟨fun _ => rfl, fun hk => absurd h1 (by simp [hk]), fun _ => rfl⟩
    | bool b => exact Option.noConfusion h
    | num n => exact Option.noConfusion h
    | obj kvs => exact Option.noConfusion h
  · cases v with
    | null =>
      injection h with h; subst h
      exact ⟨fun _ => rfl, fun _ => rfl, fun _ => rfl⟩
    | str s =>
      injection h with h; subst h
      exact ⟨fun _ => rfl, fun _ => rfl, fun hk => absurd h2 (by simp [hk])⟩
    | bool b => exact Option.noConfusion h
    | num n => exact Option.noConfusion h
    | obj kvs => exact Option.noConfusion h
  · cases v with
    | null =>
      injection h with h; subst h
      exact ⟨fun _ => rfl, fun _ => rfl, fun _ => rfl⟩
    | num n =>
      injection h with h; subst h
      exact ⟨fun hk => absurd h3 (by simp [hk]), fun _ => rfl, fun _ => rfl⟩
    | bool b => exact Option.noConfusion h
    | str s => exact Option.noConfusion h
    | obj kvs => exact Option.noConfusion h
  · injection h with h; subst h
    exact ⟨fun _ => rfl, fun _ => rfl, fun _ => rfl⟩

theorem decodeUpdateFields_preserves (kvs : List (String × Json)) :
    ∀ r r1, decodeUpdateFields r kvs = some r1 →
      ((∀ kv ∈ kvs, eqFold kv.1 "balance" = false) → r1.Balance = r.Balance) ∧
      ((∀ kv ∈ kvs, eqFold kv.1 "firstName" = false) → r1.FirstName = r.FirstName) ∧
      ((∀ kv ∈ kvs, eqFold kv.1 "lastName" = false) → r1.LastName = r.LastName) := by
  induction kvs with
  | nil =>
    intro r r1 h
    simp only [decodeUpdateFields, Option.some.injEq] at h
    subst h
    exact ⟨fun _ => rfl, fun _ => rfl, fun _ => rfl⟩
  | cons kv rest ih =>
    intro r r1 h
    unfold decodeUpdateFields at h
    cases hs : setUpdateField r kv.1 kv.2 with
    | none => rw [hs] at h; cases h
    | some rmid =>
      rw [hs] at h
      obtain ⟨hb1, hf1, hl1⟩ := setUpdateField_preserves r rmid kv.1 kv.2 hs
      obtain ⟨hb2, hf2, hl2⟩ := ih rmid r1 h
      refine ⟨?_, ?_, ?_⟩ <;> intro hall
      · rw [hb2 (fun x hx => hall x (List.mem_cons_of_mem kv hx)),
          hb1 (hall kv (List.mem_cons_self kv rest))]
      · rw [hf2 (fun x hx => hall x (List.mem_cons_of_mem kv hx)),
          hf1 (hall kv (List.mem_cons_self kv rest))]
      · rw [hl2 (fun x hx => hall x (List.mem_cons_of_mem kv hx)),
          hl1 (hall kv (List.mem_cons_self kv rest))]

/-- C9: for every PUT body that is a JSON object decoding successfully,
each field omitted from the object — no key matching its tag exactly or
case-insensitively, which is what `encoding/json` treats as present —
keeps its Go zero value (empty string, balance 0) in the decoded
`UpdateAccountRequest`, and `handleUpdateAccount` writes exactly those
decoded values wholesale into the stored record — so a body omitting
`balance` silently resets the account's balance to 0. -/
theorem c9_omitted_fields_zeroed (db : DB) (id : Int) (a : Account)
    (kvs : List (String × Json)) (r : UpdateAccountRequest)
    (hh : db.failure = none) (hfind : findAccount db id = some a)
    (hdec : decodeUpdateAccountRequest (some (.obj kvs)) = some r) :
    ((∀ kv ∈ kvs, eqFold kv.1 "balance" = false) → r.Balance = 0) ∧
    ((∀ kv ∈ kvs, eqFold kv.1 "firstName" = false) → r.FirstName = "") ∧
    ((∀ kv ∈ kvs, eqFold kv.1 "lastName" = false) → r.LastName = "") ∧
    handleUpdateAccount db id (some (.obj kvs)) =
      (.ok (WriteJSON 200 (encodeAccount
        { a with FirstName := r.FirstName, LastName := r.LastName,
                 Balance := r.Balance, UpdatedAt := db.now })),
       { db with accounts := db.accounts.map (fun b =>
           if b.ID = id then
             { a with FirstName := r.FirstName, LastName := r.LastName,
                      Balance := r.Balance, UpdatedAt := db.now }
           else b) }) := by
  have hfields : decodeUpdateFields
      { FirstName := "", LastName := "", Balance := 0 } kvs = some r := hdec
  obtain ⟨hb, hf, hl⟩ := decodeUpdateFields_preserves kvs _ r hfields
  refine ⟨hb, hf, hl, ?_⟩
  simp [handleUpdateAccount, hdec, UpdateAccount, hh, hfind]

/-- C9 witness: on the sample database, putting the body
`do-not-set-balance` object `[firstName := "X"]` decodes lastName to `""`
and balance to 0, and the stored row's balance 500 is reset to 0. -/
theorem c9_omitted_fields_zeroed_witness :
    decodeUpdateAccountRequest (some (.obj [("firstName", Json.str "X")])) =
      some { FirstName := "X", LastName := "", Balance := 0 } ∧
    findAccount sampleDB 1 = some sampleAccount ∧
    sampleAccount.Balance = 500 ∧
    handleUpdateAccount sampleDB 1 (some (.obj [("firstName", Json.str "X")])) =
      (.ok (WriteJSON 200 (encodeAccount
        { ID := 1, FirstName := "X", LastName := "", Number := 1,
          Balance := 0, CreatedAt := 3, UpdatedAt := 9 })),
       { accounts := [{ ID := 1, FirstName := "X", LastName := "", Number := 1,
                        Balance := 0, CreatedAt := 3, UpdatedAt := 9 }],
         nextId := 2, nextNumber := 2, now := 9, failure := none }) :=
  ⟨rfl, rfl, rfl,
    (c9_omitted_fields_zeroed sampleDB 1 sampleAccount
      [("firstName", Json.str "X")]
      { FirstName := "X", LastName := "", Balance := 0 } rfl rfl rfl).2.2.2⟩
